import Mathlib

/-!
Shallow embedding of `src/xlint.js` (the InboxHealth/xlint pre-commit hook).

The script has two pieces:

* `os_run(cmd)` wraps `child_process.exec`.  Its behaviour is entirely
  determined by the triple the exec callback receives: an optional error
  object, a stdout string and a stderr string (Node passes strings; JS
  truthiness of a string is non-emptiness).  We embed it as a pure function
  of that triple, returning the console log lines it emits together with
  the promise outcome (`Except` rejection/resolution).

* `module.exports` (here `main`) awaits `os_run` on the git diff command,
  branches on the response, splits/filters stdout into `changed_files`,
  and runs ESLint inside a `try`/`catch`.  The ESLint engine
  (`new ESLint()`, `lintFiles`, `loadFormatter`, `format`) is modelled as
  an opaque function from the file list to either a thrown error or a
  result aggregate plus the formatted report string.

Two JavaScript semantic points are embedded faithfully:

* `await os_run(...)` re-throws the *rejection value* of the promise, so a
  rejection of `os_run` makes the async function reject with that object
  before the `if (response.error)` classification (source lines 58-64)
  can run; those lines only see resolved values, which never carry an
  `error` field.

* `throw errors.GENERAL_ERROR` (source line 104) is inside the `try`
  block, so it is caught by `catch (eslint_error)` (line 106), which logs
  and re-throws `errors.COMMAND_CANNOT_EXECUTE`.
-/

set_option autoImplicit false

namespace Xlint

/-- `errors.GENERAL_ERROR` (source line 6). -/
def GENERAL_ERROR : Nat := 1

/-- `errors.COMMAND_CANNOT_EXECUTE` (source line 7). -/
def COMMAND_CANNOT_EXECUTE : Nat := 126

/-- `ignored_files` (source lines 13-15). -/
def ignored_files : List String := ["scripts/pre-commit.js"]

/-- The command string passed to `os_run` (source line 55). -/
def gitCmd : String := "git --no-pager diff --cached --name-only"

/-- The error object `child_process.exec` may hand the callback; only its
`message` field is read by the source. -/
structure ExecError where
  message : String
deriving DecidableEq, Repr

/-- The `error` field of the object `os_run` rejects with: either the exec
error object (source line 24) or the string literal `'UNKNOWN_ERROR'`
(source line 36). -/
inductive ErrField where
  | errObj (e : ExecError)
  | unknownSentinel
deriving DecidableEq, Repr

/-- The object `os_run` rejects with: `{ error: ..., stderr: ... }`
(source lines 24 and 36-39); `stderr` stays `null` when the captured
stderr string is empty. -/
structure OsRunRet where
  error : ErrField
  stderr : Option String
deriving DecidableEq, Repr

/-- The object `os_run` resolves with: `{success: true, stdout: ...}`
(source lines 34 and 43); `stdout` is `null` (`none`) or the non-empty
stdout string. -/
structure Response where
  success : Bool
  stdout : Option String
deriving DecidableEq, Repr

/-- `os_run` (source lines 17-50), as a function of the exec callback
triple.  Returns the `console.log` lines in order, and the promise
outcome.  JS string truthiness: a string is truthy iff non-empty. -/
def os_run (cmd : String) (error : Option ExecError) (stdout stderr : String) :
    List String × Except OsRunRet Response :=
  match error with
  | some e =>
      let err_message := "failed to execute cmd: " ++ cmd ++ ", error: " ++ e.message
      if stderr ≠ "" then
        ([err_message, err_message ++ " with stderr: " ++ stderr],
         Except.error { error := ErrField.errObj e, stderr := some stderr })
      else
        ([err_message, err_message],
         Except.error { error := ErrField.errObj e, stderr := none })
  | none =>
      if stdout ≠ "" then
        ([], Except.ok { success := true, stdout := some stdout })
      else if stderr ≠ "" then
        (["unknown error when executing cmd: " ++ cmd ++ " with stderr: " ++ stderr],
         Except.error { error := ErrField.unknownSentinel, stderr := some stderr })
      else
        ([], Except.ok { success := true, stdout := none })

/-- The findings aggregate ESLint returns (the four count fields the
source reads at lines 96-99). -/
structure LintResults where
  errorCount : Nat
  warningCount : Nat
  fixableErrorCount : Nat
  fixableWarningCount : Nat
deriving DecidableEq, Repr

/-- An error value thrown by the ESLint engine itself (constructor,
`lintFiles`, `loadFormatter` or `format`). -/
structure EslintError where
  message : String
deriving DecidableEq, Repr

/-- A JavaScript value thrown inside the `try` block: either one of the
integer sentinels or an engine error. -/
inductive JsVal where
  | int (n : Nat)
  | eslintErr (e : EslintError)
deriving DecidableEq, Repr

/-- How `console.log('Failed to run ESLint, error: ', eslint_error)`
renders the caught value. -/
def JsVal.render : JsVal → String
  | JsVal.int n => toString n
  | JsVal.eslintErr e => e.message

/-- The ESLint engine as seen by the `try` block: given the file list, it
either throws or yields the results aggregate together with the
formatted (`stylish`) report string. -/
def Engine : Type := List String → Except EslintError (LintResults × String)

/-- Character-level worker for `String.prototype.split` with a non-empty
separator `s0 :: stail`: scan left to right; at each position where the
separator is a prefix, emit the accumulated segment and skip the
separator; the remainder after the last separator (possibly empty) is the
final segment. -/
def js_split_chars (s0 : Char) (stail : List Char) (cs : List Char) (acc : List Char) :
    List (List Char) :=
  match cs with
  | [] => [acc]
  | c :: rest =>
      if (s0 :: stail).isPrefixOf (c :: rest) then
        acc :: js_split_chars s0 stail (rest.drop stail.length) []
      else
        js_split_chars s0 stail rest (acc ++ [c])
termination_by cs.length
decreasing_by
  · simp [List.length_drop]; omega
  · simp

/-- Denotation of JavaScript `String.prototype.split` with a string
separator (the source calls it at line 84 with `new_line`, which is
`"\n"` or `"\r\n"`).  An empty separator splits into single characters;
a non-empty one splits on each left-to-right non-overlapping occurrence,
keeping empty segments, e.g. `"a\nb\n".split("\n") = ["a","b",""]`. -/
def js_split (s sep : String) : List String :=
  match sep.toList with
  | [] => s.toList.map (fun c => String.mk [c])
  | s0 :: stail => (js_split_chars s0 stail s.toList []).map (fun l => String.mk l)

/-- Denotation of the regex literal `/(t|j)sx?$/g` applied via `.test`
(source line 85): the string matches iff it ends with `(t|j)` `s` and an
optional `x`, i.e. ends with one of `"ts"`, `"js"`, `"tsx"`, `"jsx"`.
(A fresh regex object is created per call, so the `g`-flag `lastIndex`
state never persists.) -/
def extTest (cf : String) : Bool :=
  "tsx".toList.isSuffixOf cf.toList || "jsx".toList.isSuffixOf cf.toList ||
    "ts".toList.isSuffixOf cf.toList || "js".toList.isSuffixOf cf.toList

/-- `new_line` (source line 77): `process.platform === 'win32' ? '\r\n' : '\n'`. -/
def new_line (platform : String) : String :=
  if platform = "win32" then "\r\n" else "\n"

/-- `changed_files` (source lines 84-86): split stdout on the platform
line terminator, keep entries that are non-empty (`cf.length`), match the
extension regex, and are not in `ignored_files`. -/
def changed_files (platform stdout : String) : List String :=
  (js_split stdout (new_line platform)).filter
    (fun cf => cf.length != 0 && extTest cf && !(ignored_files.contains cf))

/-- The `try` block body (source lines 90-105): run the engine, log the
formatted report, and either return `0` (all four counts zero) or log
`'LINTING ERRORS'` and throw `errors.GENERAL_ERROR`.  An engine throw
short-circuits with the thrown error. -/
def tryBody (engine : Engine) (files : List String) : List String × Except JsVal Nat :=
  match engine files with
  | Except.error e => ([], Except.error (JsVal.eslintErr e))
  | Except.ok (results, prettyResults) =>
      if results.errorCount = 0 ∧ results.warningCount = 0 ∧
          results.fixableErrorCount = 0 ∧ results.fixableWarningCount = 0 then
        ([prettyResults], Except.ok 0)
      else
        ([prettyResults, "LINTING ERRORS"], Except.error (JsVal.int GENERAL_ERROR))

/-- The `catch` clause (source lines 106-109): any value thrown inside
the `try` — including the integer `errors.GENERAL_ERROR` thrown at line
104 — is caught, logged, and replaced by a throw of
`errors.COMMAND_CANNOT_EXECUTE`. -/
def catchBlock (r : List String × Except JsVal Nat) : List String × Except JsVal Nat :=
  match r with
  | (log, Except.ok n) => (log, Except.ok n)
  | (log, Except.error v) =>
      (log ++ ["Failed to run ESLint, error: " ++ v.render],
       Except.error (JsVal.int COMMAND_CANNOT_EXECUTE))

/-- A value the async entry point rejects with: a thrown integer
sentinel, a thrown engine error, or the object a rejected `os_run`
promise propagates through `await`. -/
inductive RejVal where
  | code (n : Nat)
  | eslintObj (e : EslintError)
  | osObj (r : OsRunRet)
deriving DecidableEq, Repr

/-- Outcome of one run of the entry point: resolve with an integer or
reject with a `RejVal`. -/
inductive MainOutcome where
  | resolve (n : Nat)
  | reject (v : RejVal)
deriving DecidableEq, Repr

/-- Lifting a value thrown out of the try/catch to the async rejection. -/
def jsReject : JsVal → RejVal
  | JsVal.int n => RejVal.code n
  | JsVal.eslintErr e => RejVal.eslintObj e

/-- One run of the entry point: accumulated log, outcome, the file list
the ESLint engine was invoked with (if it was), and whether the final
defensive `throw errors.GENERAL_ERROR` (source line 120) was reached. -/
structure MainRun where
  log : List String
  outcome : MainOutcome
  linted : Option (List String)
  hitFallback : Bool
deriving DecidableEq, Repr

/-- The body of `module.exports` after `await os_run(...)` has settled
(source lines 56-121).  A rejected `os_run` promise makes `await`
re-throw the rejection object, so the async function rejects with it
immediately; resolved values are `Response`s, which carry no `error`
field, so `if (response.error)` (line 58) is falsy and skipped. -/
def main_core (platform : String) (osr : List String × Except OsRunRet Response)
    (engine : Engine) : MainRun :=
  match osr with
  | (log, Except.error ret) =>
      { log := log, outcome := MainOutcome.reject (RejVal.osObj ret),
        linted := none, hitFallback := false }
  | (log, Except.ok response) =>
      match response with
      | ⟨success, none⟩ =>
          -- `response.stdout === null`: true; line 69 guard is `success && true`
          if success then
            { log := log, outcome := MainOutcome.resolve 0,
              linted := none, hitFallback := false }
          else
            -- line 74 guard also false (`stdout` falsy): fall through to line 120
            { log := log, outcome := MainOutcome.reject (RejVal.code GENERAL_ERROR),
              linted := none, hitFallback := true }
      | ⟨success, some s⟩ =>
          -- `response.stdout === null` is false; line 74 guard: success and truthy stdout
          if success && (s != "") then
            let cfs := changed_files platform s
            if cfs.length != 0 then
              match catchBlock (tryBody engine cfs) with
              | (lintLog, Except.ok n) =>
                  { log := log ++ lintLog, outcome := MainOutcome.resolve n,
                    linted := some cfs, hitFallback := false }
              | (lintLog, Except.error v) =>
                  { log := log ++ lintLog, outcome := MainOutcome.reject (jsReject v),
                    linted := some cfs, hitFallback := false }
            else
              { log := log, outcome := MainOutcome.resolve 0,
                linted := none, hitFallback := false }
          else
            { log := log, outcome := MainOutcome.reject (RejVal.code GENERAL_ERROR),
              linted := none, hitFallback := true }

/-- `module.exports` (source lines 52-121) as a function of the exec
callback triple observed for the git command, the platform identifier,
and the ESLint engine behaviour. -/
def main (platform : String) (gitError : Option ExecError) (gitStdout gitStderr : String)
    (engine : Engine) : MainRun :=
  main_core platform (os_run gitCmd gitError gitStdout gitStderr) engine

/-- Spec-side filter predicate, following the spec's words: keep a split
entry iff its path ends in one of the four recognized extension spellings
(`js`, `jsx`, `ts`, `tsx`) and is not equal to the reserved self-path
`scripts/pre-commit.js`.  To be compared with the predicate the source
uses inside `changed_files`. -/
def spec_keep (cf : String) : Bool :=
  ("tsx".toList.isSuffixOf cf.toList || "jsx".toList.isSuffixOf cf.toList ||
      "ts".toList.isSuffixOf cf.toList || "js".toList.isSuffixOf cf.toList) &&
    cf != "scripts/pre-commit.js"

/-- An engine run yielding zero findings in all four count fields. -/
def zeroEngine : Engine :=
  fun _ => Except.ok ({ errorCount := 0, warningCount := 0,
                        fixableErrorCount := 0, fixableWarningCount := 0 }, "clean report")

/-- An engine run yielding one warning and nothing else. -/
def warnEngine : Engine :=
  fun _ => Except.ok ({ errorCount := 0, warningCount := 1,
                        fixableErrorCount := 0, fixableWarningCount := 0 }, "warning report")

/-- An engine run that throws (for example a configuration error). -/
def failEngine : Engine :=
  fun _ => Except.error { message := "config not found" }

/-- Shape of every value the `os_run` promise can resolve with:
`success` is `true` and `stdout` is `null` or a non-empty string. -/
def okShape : Except OsRunRet Response → Prop
  | Except.ok v => v.success = true ∧ (v.stdout = none ∨ ∃ s, v.stdout = some s ∧ s ≠ "")
  | Except.error _ => True

end Xlint

namespace Xlint

/-- Helper: a non-empty string passes the `cf.length` conjunct of the
source filter. -/
theorem length_bne_of_ne_empty (cf : String) (h : cf ≠ "") : (cf.length != 0) = true := by
  rw [bne_iff_ne]
  intro hlen
  apply h
  cases cf with
  | mk d =>
    simp only [String.length] at hlen
    simp_all [List.length_eq_zero]

/-- Helper: membership in the singleton `ignored_files` list is equality
with the reserved self-path. -/
theorem not_contains_ignored (cf : String) :
    (!(ignored_files.contains cf)) = (cf != "scripts/pre-commit.js") := by
  simp only [ignored_files, List.contains, List.elem]
  cases hd : cf == "scripts/pre-commit.js" <;> simp_all [bne]

/-- Helper: the source filter predicate of `changed_files` agrees with
the spec-side predicate `spec_keep` on every string. -/
theorem changed_files_pred (cf : String) :
    (cf.length != 0 && extTest cf && !(ignored_files.contains cf)) = spec_keep cf := by
  by_cases hcf : cf = ""
  · subst hcf; decide
  · rw [length_bne_of_ne_empty cf hcf, not_contains_ignored]
    simp [spec_keep, extTest]

/-- Helper: concrete evaluation of `changed_files` on `"src/a.tsx\nREADME.md\n"`. -/
theorem changed_files_tsx_readme :
    changed_files "linux" "src/a.tsx\nREADME.md\n" = ["src/a.tsx"] := by
  simp [changed_files, js_split, js_split_chars, new_line, extTest, ignored_files]
  decide

/-- Helper: concrete evaluation of `changed_files` on the reserved path. -/
theorem changed_files_reserved :
    changed_files "linux" "scripts/pre-commit.js\n" = [] := by
  simp [changed_files, js_split, js_split_chars, new_line, extTest, ignored_files]

/-- Helper: concrete evaluation of `changed_files` on `"a.ts\n"`. -/
theorem changed_files_a_ts :
    changed_files "linux" "a.ts\n" = ["a.ts"] := by
  simp [changed_files, js_split, js_split_chars, new_line, extTest, ignored_files]
  decide

/-- Helper: on a clean resolver run with non-empty stdout whose filtered
list is non-empty, the entry point reduces to the try/catch-wrapped lint
step applied to `changed_files`. -/
theorem main_lint_path (platform stdout : String) (engine : Engine)
    (h : stdout ≠ "") (h2 : changed_files platform stdout ≠ []) :
    main platform none stdout "" engine =
      { log := (catchBlock (tryBody engine (changed_files platform stdout))).1,
        outcome :=
          match (catchBlock (tryBody engine (changed_files platform stdout))).2 with
          | Except.ok n => MainOutcome.resolve n
          | Except.error v => MainOutcome.reject (jsReject v),
        linted := some (changed_files platform stdout),
        hitFallback := false } := by
  have hos : os_run gitCmd none stdout "" = ([], Except.ok { success := true, stdout := some stdout }) := by
    simp [os_run, h]
  have hb : (stdout != "") = true := bne_iff_ne.mpr h
  have hlen : ((changed_files platform stdout).length != 0) = true := by
    rw [bne_iff_ne]
    intro hl
    exact h2 (List.length_eq_zero.mp hl)
  rw [main, hos]
  simp only [main_core, Bool.true_and, hb, if_true, hlen]
  rcases hcb : catchBlock (tryBody engine (changed_files platform stdout)) with ⟨lintLog, r⟩
  cases r <;> simp [hcb]

/-- C3: the path filter retains exactly those split entries whose path
ends in one of the four recognized extension spellings (`js`, `jsx`,
`ts`, `tsx`) and is not the reserved self-path `scripts/pre-commit.js`,
preserving the original order; in particular `"src/a.tsx\nREADME.md\n"`
filters to exactly `["src/a.tsx"]`, and the lint engine is invoked with
exactly that list. -/
theorem changed_files_characterization (platform stdout : String) (engine : Engine) :
    changed_files platform stdout
        = (js_split stdout (new_line platform)).filter spec_keep
      ∧ changed_files "linux" "src/a.tsx\nREADME.md\n" = ["src/a.tsx"]
      ∧ (main "linux" none "src/a.tsx\nREADME.md\n" "" engine).linted
          = some ["src/a.tsx"] := by
  refine ⟨?_, changed_files_tsx_readme, ?_⟩
  · unfold changed_files
    exact List.filter_congr (fun cf _ => changed_files_pred cf)
  · rw [main_lint_path "linux" "src/a.tsx\nREADME.md\n" engine (by decide)
        (by rw [changed_files_tsx_readme]; decide)]
    simp [changed_files_tsx_readme]

/-- C7: splitting on the line terminator is unaffected by a trailing
terminator: on any platform whose terminator is `"\n"` the input
`"a.ts\nb.js\n"` yields the filtered list `["a.ts", "b.js"]`, with no
trailing empty entry. -/
theorem split_discards_trailing_terminator (platform : String) (h : platform ≠ "win32") :
    changed_files platform "a.ts\nb.js\n" = ["a.ts", "b.js"] := by
  have hnl : new_line platform = "\n" := by simp [new_line, h]
  unfold changed_files
  rw [hnl]
  simp [js_split, js_split_chars, extTest, ignored_files]
  decide

/-- Witness for the trailing-terminator claim at platform `"linux"`. -/
theorem split_discards_trailing_terminator_witness :
    "linux" ≠ "win32" ∧ changed_files "linux" "a.ts\nb.js\n" = ["a.ts", "b.js"] :=
  ⟨by decide, split_discards_trailing_terminator "linux" (by decide)⟩

/-- C9: the line terminator is selected solely from the platform
identifier: the two-character terminator `"\r\n"` exactly when it is
`"win32"`, and the one-character terminator `"\n"` for every other
identifier. -/
theorem new_line_selection (platform : String) :
    (new_line platform = "\r\n" ↔ platform = "win32")
      ∧ (new_line platform = "\n" ↔ platform ≠ "win32") := by
  by_cases h : platform = "win32" <;> simp [new_line, h]

/-- C1 (evaluation at the failing input): with an aggregate of
`errorCount 0, warningCount 1, fixableErrorCount 0, fixableWarningCount 0`
the entry point rejects with `COMMAND_CANNOT_EXECUTE` (126), not
`GENERAL_ERROR` (1): the `throw errors.GENERAL_ERROR` at source line 104
sits inside the `try` block and is caught and converted by the `catch`
at line 106. -/
theorem lint_warning_rejects_cannot_execute :
    (main "linux" none "a.ts\n" "" warnEngine).outcome
        = MainOutcome.reject (RejVal.code COMMAND_CANNOT_EXECUTE)
      ∧ (main "linux" none "a.ts\n" "" warnEngine).outcome
          ≠ MainOutcome.reject (RejVal.code GENERAL_ERROR) := by
  constructor <;>
  · rw [main_lint_path "linux" "a.ts\n" warnEngine (by decide)
        (by rw [changed_files_a_ts]; decide), changed_files_a_ts]
    simp [tryBody, catchBlock, warnEngine, jsReject, GENERAL_ERROR, COMMAND_CANNOT_EXECUTE]

/-- C2 (evaluation at the failing inputs): a failing resolver makes the
entry point reject with the rejection object of `os_run` — propagated by
`await` before the classification at source lines 58-64 can run — and
not with either integer sentinel, neither for a hard exec failure nor
for the `UNKNOWN_ERROR` sentinel case. -/
theorem resolver_failure_rejects_object :
    ((main "linux" (some { message := "boom" }) "" "" zeroEngine).outcome
        = MainOutcome.reject (RejVal.osObj
            { error := ErrField.errObj { message := "boom" }, stderr := none }))
      ∧ (main "linux" (some { message := "boom" }) "" "" zeroEngine).outcome
          ≠ MainOutcome.reject (RejVal.code COMMAND_CANNOT_EXECUTE)
      ∧ ((main "linux" none "" "warning text" zeroEngine).outcome
          = MainOutcome.reject (RejVal.osObj
              { error := ErrField.unknownSentinel, stderr := some "warning text" }))
      ∧ (main "linux" none "" "warning text" zeroEngine).outcome
          ≠ MainOutcome.reject (RejVal.code GENERAL_ERROR) := by
  refine ⟨?_, ?_, ?_, ?_⟩ <;> simp [main, main_core, os_run, gitCmd]

/-- C4: when the findings aggregate has all four counts zero, the entry
point resolves with `0`. -/
theorem clean_lint_resolves_zero (platform stdout : String) (engine : Engine)
    (results : LintResults) (pretty : String)
    (h : stdout ≠ "") (h2 : changed_files platform stdout ≠ [])
    (h3 : engine (changed_files platform stdout) = Except.ok (results, pretty))
    (h4 : results.errorCount = 0) (h5 : results.warningCount = 0)
    (h6 : results.fixableErrorCount = 0) (h7 : results.fixableWarningCount = 0) :
    (main platform none stdout "" engine).outcome = MainOutcome.resolve 0 := by
  rw [main_lint_path platform stdout engine h h2]
  simp [tryBody, catchBlock, h3, h4, h5, h6, h7]

/-- Witness for the clean-lint claim: one staged `a.ts` file and a
zero-findings aggregate. -/
theorem clean_lint_resolves_zero_witness :
    (main "linux" none "a.ts\n" "" zeroEngine).outcome = MainOutcome.resolve 0 :=
  clean_lint_resolves_zero "linux" "a.ts\n" zeroEngine
    { errorCount := 0, warningCount := 0, fixableErrorCount := 0, fixableWarningCount := 0 }
    "clean report" (by decide) (by rw [changed_files_a_ts]; decide) rfl rfl rfl rfl rfl

/-- C5: when the resolver resolves with `null` stdout (no staged files),
the entry point resolves with `0` and the lint engine is never
invoked. -/
theorem null_stdout_resolves_zero (platform : String) (e : Option ExecError)
    (so se : String) (engine : Engine) (log : List String)
    (h : os_run gitCmd e so se = (log, Except.ok { success := true, stdout := none })) :
    (main platform e so se engine).outcome = MainOutcome.resolve 0
      ∧ (main platform e so se engine).linted = none := by
  unfold main
  rw [h]
  simp [main_core]

/-- Witness for the null-stdout claim: a callback with no error, empty
stdout and empty stderr. -/
theorem null_stdout_resolves_zero_witness :
    (main "linux" none "" "" zeroEngine).outcome = MainOutcome.resolve 0
      ∧ (main "linux" none "" "" zeroEngine).linted = none :=
  null_stdout_resolves_zero "linux" none "" "" zeroEngine [] rfl

/-- C6: when the filtered path list is empty, the entry point resolves
with `0` without invoking the lint engine. -/
theorem empty_filtered_resolves_zero (platform stdout : String) (engine : Engine)
    (h : stdout ≠ "") (h2 : changed_files platform stdout = []) :
    (main platform none stdout "" engine).outcome = MainOutcome.resolve 0
      ∧ (main platform none stdout "" engine).linted = none := by
  have hos : os_run gitCmd none stdout ""
      = ([], Except.ok { success := true, stdout := some stdout }) := by
    simp [os_run, h]
  have hb : (stdout != "") = true := bne_iff_ne.mpr h
  unfold main
  rw [hos]
  simp [main_core, hb, h2]

/-- Witness for the empty-filtered-list claim: the resolver reports only
the reserved self-path. -/
theorem empty_filtered_resolves_zero_witness :
    (main "linux" none "scripts/pre-commit.js\n" "" zeroEngine).outcome
        = MainOutcome.resolve 0
      ∧ (main "linux" none "scripts/pre-commit.js\n" "" zeroEngine).linted = none :=
  empty_filtered_resolves_zero "linux" "scripts/pre-commit.js\n" zeroEngine (by decide)
    changed_files_reserved

/-- C8: when the lint engine invocation itself throws, the entry point
rejects with `COMMAND_CANNOT_EXECUTE` (126) and the error is logged
before the failure is propagated. -/
theorem engine_throw_rejects_cannot_execute (platform stdout : String) (engine : Engine)
    (e : EslintError)
    (h : stdout ≠ "") (h2 : changed_files platform stdout ≠ [])
    (h3 : engine (changed_files platform stdout) = Except.error e) :
    (main platform none stdout "" engine).outcome
        = MainOutcome.reject (RejVal.code COMMAND_CANNOT_EXECUTE)
      ∧ ("Failed to run ESLint, error: " ++ e.message)
          ∈ (main platform none stdout "" engine).log := by
  rw [main_lint_path platform stdout engine h h2]
  simp [tryBody, catchBlock, h3, jsReject, JsVal.render]

/-- Witness for the engine-throw claim: one staged `a.ts` file and a
throwing engine. -/
theorem engine_throw_rejects_cannot_execute_witness :
    (main "linux" none "a.ts\n" "" failEngine).outcome
        = MainOutcome.reject (RejVal.code COMMAND_CANNOT_EXECUTE)
      ∧ ("Failed to run ESLint, error: " ++ "config not found")
          ∈ (main "linux" none "a.ts\n" "" failEngine).log :=
  engine_throw_rejects_cannot_execute "linux" "a.ts\n" failEngine
    { message := "config not found" } (by decide) (by rw [changed_files_a_ts]; decide) rfl

/-- C10: every value `os_run` resolves with has `success = true` and a
`stdout` that is `null` or a non-empty string, and consequently the
final defensive `throw errors.GENERAL_ERROR` at source line 120 is never
reached on any run of the entry point. -/
theorem os_run_shape_fallback_unreachable (platform : String) (e : Option ExecError)
    (so se : String) (engine : Engine) :
    okShape (os_run gitCmd e so se).2
      ∧ (main platform e so se engine).hitFallback = false := by
  cases e with
  | some err =>
      constructor
      · by_cases hse : se = "" <;> simp [os_run, okShape, hse]
      · by_cases hse : se = "" <;> simp [main, main_core, os_run, hse]
  | none =>
      by_cases hso : so = ""
      · subst hso
        by_cases hse : se = "" <;> constructor <;>
          simp [os_run, okShape, main, main_core, hse]
      · have hos : os_run gitCmd none so se
            = ([], Except.ok { success := true, stdout := some so }) := by
          simp [os_run, hso]
        have hb : (so != "") = true := bne_iff_ne.mpr hso
        constructor
        · rw [hos]
          exact ⟨rfl, Or.inr ⟨so, rfl, hso⟩⟩
        · unfold main
          rw [hos]
          simp only [main_core, hb, Bool.true_and, if_true]
          split
          · rcases hcb : catchBlock (tryBody engine (changed_files platform so)) with ⟨l, r⟩
            cases r <;> simp [hcb]
          · rfl

end Xlint
